import Mathlib

/-!
Verification of the core algorithms of `pygrib.pyx` (a Cython module exposing
WMO GRIB messages as dictionary-like objects) against a shallow embedding.

Modelling conventions:
* machine doubles are modelled as `ℚ` (exact arithmetic); C `long` as `ℤ`;
* numpy 2-D arrays are lists of rows (`List (List ℚ)`);
* fallible Python code returns `Except PyErr`;
* the external GRIB decoder handle is a finite association list of keys, each
  carrying its native type tag, payload and read-only flag;
* the external projection engine (pyproj) is an oracle record of total
  functions supplied as a parameter.
-/

deriving instance DecidableEq for Except

namespace Pygrib

/-- Python-level errors raised by the embedded operations. -/
inductive PyErr where
  /-- Decoder failure `RuntimeError(grib_get_error_message(err))` propagated from the decoder -/
  | runtimeError (msg : String)
  /-- Catalog `KeyError` raised by the local catalog gate of `__setitem__` -/
  | keyError (msg : String)
  /-- Python `ValueError` -/
  | valueError (msg : String)
  /-- a supplied value of the wrong Python type for the operation -/
  | typeError (msg : String)
  /-- Python `UnboundLocalError`: a local variable referenced before assignment -/
  | unboundLocal
  deriving DecidableEq

/-! ## ScanOrderNormalizer

The three scan-direction corrections applied to a 2-D `values` array, from
`gribmessage._reshape_mask` (decode path, src/pygrib.pyx lines 653-666) and
`gribmessage._unshape_mask` (encode path, lines 617-631). -/

/-- Row flip `datarr[:,:] = datsave[::-1,:]`: reverse the row order. -/
def rowFlip (g : List (List α)) : List (List α) := g.reverse

/-- Column flip `datarr[:,:] = datsave[:,::-1]`: reverse the column order within every row. -/
def colFlip (g : List (List α)) : List (List α) := g.map List.reverse

/-- Helper for `oddRowFlip`; `i` is the index of the first row of the remaining list. -/
def oddRowFlipAux (i : ℕ) : List (List α) → List (List α)
  | [] => []
  | r :: rs => (if i % 2 = 1 then r.reverse else r) :: oddRowFlipAux (i + 1) rs

/-- Odd-row flip `datarr[1::2,:] = datsave[1::2,::-1]`: reverse the column order of the
odd-indexed rows only. -/
def oddRowFlip (g : List (List α)) : List (List α) := oddRowFlipAux 0 g

/-- The decode-path scan corrections of `_reshape_mask` (lines 653-666), in
source order: row flip when `jScansPositively` is falsy, column flip when
`iScansNegatively` is truthy, odd-row flip when `alternativeRowScanning` is
truthy. -/
def decodeScanFlips (jScansPositively iScansNegatively alternativeRowScanning : Bool)
    (g : List (List α)) : List (List α) :=
  let g1 := if jScansPositively then g else rowFlip g
  let g2 := if iScansNegatively then colFlip g1 else g1
  if alternativeRowScanning then oddRowFlip g2 else g2

/-- The encode-path scan corrections of `_unshape_mask` (lines 617-631).  The
source writes the slice assignments inverted (`datarr[::-1,:] = datsave[:,:]`,
`datarr[:,::-1] = datsave[:,:]`, `datarr[1::2,::-1] = datsave[1::2,:]`), which
denote exactly the same three row/column permutations, applied in the same
order. -/
def encodeScanFlips (jScansPositively iScansNegatively alternativeRowScanning : Bool)
    (g : List (List α)) : List (List α) :=
  let g1 := if jScansPositively then g else rowFlip g
  let g2 := if iScansNegatively then colFlip g1 else g1
  if alternativeRowScanning then oddRowFlip g2 else g2

theorem encodeScanFlips_eq_decodeScanFlips :
    @encodeScanFlips α = @decodeScanFlips α := rfl

theorem oddRowFlipAux_length (g : List (List α)) : ∀ i, (oddRowFlipAux i g).length = g.length := by
  induction g with
  | nil => intro i; rfl
  | cons r rs ih => intro i; simp [oddRowFlipAux, ih]

theorem oddRowFlip_length (g : List (List α)) : (oddRowFlip g).length = g.length :=
  oddRowFlipAux_length g 0

theorem oddRowFlipAux_getElem? (g : List (List α)) :
    ∀ i k, (oddRowFlipAux i g)[k]? = g[k]?.map (fun r => if (i + k) % 2 = 1 then r.reverse else r) := by
  induction g with
  | nil => intro i k; simp [oddRowFlipAux]
  | cons r rs ih =>
      intro i k
      cases k with
      | zero => simp [oddRowFlipAux]
      | succ k =>
          simp only [oddRowFlipAux, List.getElem?_cons_succ, ih (i + 1) k]
          have : i + 1 + k = i + (k + 1) := by omega
          rw [this]

theorem oddRowFlip_getElem? (g : List (List α)) (k : ℕ) :
    (oddRowFlip g)[k]? = g[k]?.map (fun r => if k % 2 = 1 then r.reverse else r) := by
  simpa using oddRowFlipAux_getElem? g 0 k

theorem rowFlip_rowFlip (g : List (List α)) : rowFlip (rowFlip g) = g :=
  List.reverse_reverse g

theorem colFlip_colFlip (g : List (List α)) : colFlip (colFlip g) = g := by
  simp only [colFlip, List.map_map]
  have h : (List.reverse ∘ List.reverse : List α → List α) = id :=
    funext fun l => List.reverse_reverse l
  rw [h, List.map_id]

theorem colFlip_rowFlip (g : List (List α)) : colFlip (rowFlip g) = rowFlip (colFlip g) := by
  simp [colFlip, rowFlip, List.map_reverse]

theorem oddRowFlipAux_colFlip (g : List (List α)) :
    ∀ i, oddRowFlipAux i (colFlip g) = colFlip (oddRowFlipAux i g) := by
  induction g with
  | nil => intro i; rfl
  | cons r rs ih =>
      intro i
      have hih := ih (i + 1)
      simp only [colFlip] at hih ⊢
      by_cases h : i % 2 = 1 <;> simp [oddRowFlipAux, h, hih]

theorem oddRowFlip_colFlip (g : List (List α)) :
    oddRowFlip (colFlip g) = colFlip (oddRowFlip g) :=
  oddRowFlipAux_colFlip g 0

theorem oddRowFlipAux_oddRowFlipAux (g : List (List α)) :
    ∀ i, oddRowFlipAux i (oddRowFlipAux i g) = g := by
  induction g with
  | nil => intro i; rfl
  | cons r rs ih =>
      intro i
      by_cases h : i % 2 = 1 <;> simp [oddRowFlipAux, h, ih (i + 1)]

theorem oddRowFlip_oddRowFlip (g : List (List α)) : oddRowFlip (oddRowFlip g) = g :=
  oddRowFlipAux_oddRowFlipAux g 0

/-- With an odd number of rows, the odd-row flip commutes with the row flip in
the sense needed for the round trip: row index `k` maps to `n-1-k`, which has
the same parity when `n` is odd. -/
theorem oddRowFlip_rowFlip_oddRowFlip_rowFlip (g : List (List α))
    (h : g.length % 2 = 1) :
    oddRowFlip (rowFlip (oddRowFlip (rowFlip g))) = g := by
  apply List.ext_getElem?
  intro k
  by_cases hk : k < g.length
  · have hlen1 : (rowFlip g).length = g.length := List.length_reverse g
    have hlen2 : (oddRowFlip (rowFlip g)).length = g.length := by
      rw [oddRowFlip_length, hlen1]
    have hk2 : k < (oddRowFlip (rowFlip g)).length := by omega
    have hk3 : g.length - 1 - k < g.length := by omega
    rw [oddRowFlip_getElem?, rowFlip, List.getElem?_reverse (by rwa [hlen2]),
        hlen2, oddRowFlip_getElem?, rowFlip, List.getElem?_reverse (by omega)]
    have hidx : g.length - 1 - (g.length - 1 - k) = k := by omega
    rw [hidx, Option.map_map]
    have hpar : (g.length - 1 - k) % 2 = k % 2 := by omega
    rcases g[k]? with _ | r
    · rfl
    · by_cases hp : k % 2 = 1 <;>
        simp [hp, hpar, Function.comp, List.reverse_reverse]
  · push_neg at hk
    have h1 : (oddRowFlip (rowFlip (oddRowFlip (rowFlip g)))).length = g.length := by
      rw [oddRowFlip_length, rowFlip, List.length_reverse, oddRowFlip_length,
          rowFlip, List.length_reverse]
    rw [List.getElem?_eq_none (by omega), List.getElem?_eq_none (by omega)]

/-- C1 counterexample: with `jScansPositively` false, `alternativeRowScanning`
true and an even number of rows, applying the decode-path flips and then the
encode-path flips with the same flags does not restore the array. -/
theorem c1_scan_roundtrip_cx :
    encodeScanFlips false false true (decodeScanFlips false false true [[1, 2], [3, 4]])
      ≠ ([[1, 2], [3, 4]] : List (List ℤ)) := by decide

/-- C1 (amended): for every 2-D array and fixed scan flags, applying the
decode-path flips and then the encode-path flips (each in the order row-flip,
column-flip, odd-row-flip) restores the original array, provided rows scan
positively (no row flip), or alternative-row scanning is off, or the number of
rows is odd.  (When a row flip combines with alternative-row scanning over an
even number of rows the double application reverses every row instead.) -/
theorem c1_scan_roundtrip (j i a : Bool) (g : List (List α))
    (h : j = true ∨ a = false ∨ g.length % 2 = 1) :
    encodeScanFlips j i a (decodeScanFlips j i a g) = g := by
  cases j with
  | true =>
      cases i <;> cases a <;>
        simp [decodeScanFlips, encodeScanFlips, oddRowFlip_colFlip,
          oddRowFlip_oddRowFlip, colFlip_colFlip]
  | false =>
      cases a with
      | false =>
          cases i <;>
            simp [decodeScanFlips, encodeScanFlips, colFlip_rowFlip,
              rowFlip_rowFlip, colFlip_colFlip]
      | true =>
          have hodd : g.length % 2 = 1 := by
            rcases h with h | h | h
            · exact absurd h (by simp)
            · exact absurd h (by simp)
            · exact h
          cases i with
          | false =>
              simpa [decodeScanFlips, encodeScanFlips] using
                oddRowFlip_rowFlip_oddRowFlip_rowFlip g hodd
          | true =>
              simp only [decodeScanFlips, encodeScanFlips, Bool.false_eq_true,
                if_false, if_true]
              simp only [colFlip_rowFlip, ← oddRowFlip_colFlip, colFlip_colFlip]
              exact oddRowFlip_rowFlip_oddRowFlip_rowFlip g hodd

/-- C1 witness: a concrete odd-row-count round trip. -/
theorem c1_scan_roundtrip_witness :
    encodeScanFlips false true true
        (decodeScanFlips false true true [[1, 2], [3, 4], [5, 6]])
      = ([[1, 2], [3, 4], [5, 6]] : List (List ℤ)) :=
  c1_scan_roundtrip false true true _ (by decide)

/-! ## ReducedGridExpander: `_redtoreg` (src/pygrib.pyx lines 919-962)

Converts data on a reduced (quasi-regular) grid, stored as a flat buffer with
`lonsperlat[j]` points in row `j`, to a regular `nlats × nlons` grid by linear
interpolation, falling back to the nearest neighbour when an adjacent source
value equals the missing sentinel. -/

/-- The C cast `<long>zxi`: truncation toward zero. -/
def cTrunc (q : ℚ) : ℤ := if 0 ≤ q then ⌊q⌋ else -⌊-q⌋

/-- Read of the flat C buffer `redgrdptr[i]`.  The C code performs no bounds
check; an out-of-range read is modelled as 0 (no claim depends on one). -/
def bufGet (buf : List ℚ) (i : ℤ) : ℚ :=
  if 0 ≤ i then buf.getD i.toNat 0 else 0

/-- Body of the inner loop of `_redtoreg` for output column `i` of a row of
reduced length `ilons`, reading the flat reduced buffer from offset `indx`.
The integer `%` of the C code is truncation-based `Int.tmod`.  When
`ilons == 0` the cell keeps the `missval` pre-fill of the output buffer. -/
def redtoregCell (nlons : ℕ) (ilons : ℤ) (redgrid : List ℚ) (indx : ℤ)
    (missval : ℚ) (i : ℕ) : ℚ :=
  let zxi : ℚ := (i : ℚ) * (ilons : ℚ) / (nlons : ℚ)
  let im : ℤ := cTrunc zxi
  let zdx : ℚ := zxi - (im : ℚ)
  if ilons ≠ 0 then
    let im2 := (im + ilons).tmod ilons
    let ip := (im2 + 1 + ilons).tmod ilons
    if bufGet redgrid (indx + im2) = missval ∨ bufGet redgrid (indx + ip) = missval then
      if zdx < 1 / 2 then bufGet redgrid (indx + im2) else bufGet redgrid (indx + ip)
    else
      bufGet redgrid (indx + im2) * (1 - zdx) + bufGet redgrid (indx + ip) * zdx
  else missval

/-- Outer loop of `_redtoreg`: one output row per entry of `lonsperlat`,
threading the running source offset `indx = indx + ilons`. -/
def redtoregRows (nlons : ℕ) (redgrid : List ℚ) (missval : ℚ) :
    List ℤ → ℤ → List (List ℚ)
  | [], _ => []
  | ilons :: rest, indx =>
      (List.range nlons).map (redtoregCell nlons ilons redgrid indx missval)
        :: redtoregRows nlons redgrid missval rest (indx + ilons)

/-- The full `_redtoreg(nlons, lonsperlat, redgrid, missval)`. -/
def redtoreg (nlons : ℕ) (lonsperlat : List ℤ) (redgrid : List ℚ)
    (missval : ℚ) : List (List ℚ) :=
  redtoregRows nlons redgrid missval lonsperlat 0

/-- When the reduced row length equals the target width, the fractional source
index is exactly the integer output index (`zxi = i`, `zdx = 0`), so each cell
is copied verbatim from the source row. -/
theorem redtoregCell_ident (nlons : ℕ) (redgrid : List ℚ) (indx : ℤ)
    (missval : ℚ) (i : ℕ) (hn : 0 < nlons) (hi : i < nlons) (hindx : 0 ≤ indx) :
    redtoregCell nlons (nlons : ℤ) redgrid indx missval i
      = redgrid.getD (indx.toNat + i) 0 := by
  have hq : (nlons : ℚ) ≠ 0 := Nat.cast_ne_zero.mpr hn.ne'
  have hz : (i : ℚ) * (nlons : ℚ) / (nlons : ℚ) = (i : ℚ) := by field_simp
  have him : cTrunc ((i : ℚ)) = (i : ℤ) := by
    unfold cTrunc
    rw [if_pos (by positivity), Int.floor_natCast]
  have him2 : ((i : ℤ) + (nlons : ℤ)).tmod (nlons : ℤ) = (i : ℤ) := by
    rw [Int.tmod_eq_emod (by positivity) (by positivity)]
    have hstep : ((i : ℤ) + nlons) % nlons = (i : ℤ) % nlons := by
      conv_lhs => rw [show ((i : ℤ) + nlons) = (i : ℤ) + nlons * 1 by ring]
      exact Int.add_mul_emod_self_left _ _ _
    rw [hstep, Int.emod_eq_of_lt (by positivity) (by exact_mod_cast hi)]
  have hbuf : bufGet redgrid (indx + (i : ℤ)) = redgrid.getD (indx.toNat + i) 0 := by
    unfold bufGet
    rw [if_pos (by positivity)]
    congr 1
    omega
  simp only [redtoregCell, Int.cast_natCast, hz, him, him2, sub_self]
  rw [if_pos (by exact_mod_cast hn.ne')]
  by_cases hmiss : bufGet redgrid (indx + (i : ℤ)) = missval ∨
      bufGet redgrid (indx + ((i : ℤ) + 1 + (nlons : ℤ)).tmod (nlons : ℤ)) = missval
  · rw [if_pos hmiss, if_pos (by norm_num), hbuf]
  · rw [if_neg hmiss, ← hbuf]
    ring

/-- Every row built by `redtoregRows` has exactly `nlons` entries. -/
theorem redtoregRows_length (nlons : ℕ) (redgrid : List ℚ) (missval : ℚ) :
    ∀ (pl : List ℤ) (indx : ℤ),
      ∀ row ∈ redtoregRows nlons redgrid missval pl indx, row.length = nlons := by
  intro pl
  induction pl with
  | nil => intro indx row hrow; simp [redtoregRows] at hrow
  | cons ilons rest ih =>
      intro indx row hrow
      rcases List.mem_cons.mp hrow with hrow | hrow
      · simp [hrow]
      · exact ih (indx + ilons) row hrow

/-- A row whose reduced length equals the target width is copied exactly from
the source buffer slice starting at the running offset. -/
theorem redtoregRows_getD (nlons : ℕ) (redgrid : List ℚ) (missval : ℚ)
    (hn : 0 < nlons) :
    ∀ (pl : List ℤ) (indx : ℤ) (j : ℕ), 0 ≤ indx → (∀ x ∈ pl, 0 ≤ x) →
      j < pl.length → pl.getD j 0 = (nlons : ℤ) →
      (indx + (pl.take j).sum).toNat + nlons ≤ redgrid.length →
      (redtoregRows nlons redgrid missval pl indx).getD j []
        = (redgrid.drop (indx + (pl.take j).sum).toNat).take nlons := by
  intro pl
  induction pl with
  | nil => intro indx j _ _ hj; exact absurd hj (by simp)
  | cons ilons rest ih =>
      intro indx j hindx hpos hj hrow hlen
      cases j with
      | zero =>
          simp only [List.take_zero, List.sum_nil, add_zero] at hlen ⊢
          simp only [List.getD_cons_zero] at hrow
          subst hrow
          simp only [redtoregRows, List.getD_cons_zero]
          apply List.ext_getElem?
          intro k
          by_cases hk : k < nlons
          · simp only [List.getElem?_map, List.getElem?_range hk, Option.map_some']
            rw [List.getElem?_take, if_pos hk, List.getElem?_drop]
            rw [redtoregCell_ident nlons redgrid indx missval k hn hk hindx]
            rw [List.getD_eq_getElem?_getD,
                List.getElem?_eq_getElem (by omega)]
            rfl
          · rw [List.getElem?_eq_none (by simp; omega),
                List.getElem?_eq_none (by rw [List.length_take]; omega)]
      | succ j =>
          have hil : 0 ≤ ilons := hpos ilons (by simp)
          simp only [redtoregRows, List.getD_cons_succ]
          have hsum : indx + ((ilons :: rest).take (j + 1)).sum
              = (indx + ilons) + (rest.take j).sum := by
            simp [List.take_succ_cons, List.sum_cons]
            ring
          rw [hsum] at hlen
          have := ih (indx + ilons) j (by omega) (fun x hx => hpos x (by simp [hx]))
            (by simpa using hj) (by simpa using hrow) hlen
          rw [this, hsum]

/-- C2: for every row `j` the output row of `_redtoreg` has exactly `nlons`
(target-width) entries, and every row whose reduced length `lonsperlat[j]`
equals the target width is copied from the source exactly, with no
interpolation drift (the fractional index maps exactly to an integer index). -/
theorem c2_redtoreg_exact (nlons : ℕ) (lonsperlat : List ℤ) (redgrid : List ℚ)
    (missval : ℚ) (hn : 0 < nlons) (hpos : ∀ x ∈ lonsperlat, 0 ≤ x)
    (j : ℕ) (hj : j < lonsperlat.length) :
    (∀ row ∈ redtoreg nlons lonsperlat redgrid missval, row.length = nlons) ∧
    (lonsperlat.getD j 0 = (nlons : ℤ) →
      ((lonsperlat.take j).sum).toNat + nlons ≤ redgrid.length →
      (redtoreg nlons lonsperlat redgrid missval).getD j []
        = (redgrid.drop ((lonsperlat.take j).sum).toNat).take nlons) := by
  constructor
  · exact redtoregRows_length nlons redgrid missval lonsperlat 0
  · intro hrow hlen
    have h := redtoregRows_getD nlons redgrid missval hn lonsperlat 0 j
      (le_refl 0) hpos hj hrow (by simpa using hlen)
    simpa using h

/-- C2 witness: expanding the reduced grid `[3]`, buffer `[1, 2, 3]`, to target
width 3 reproduces the source row exactly. -/
theorem c2_redtoreg_exact_witness :
    (redtoreg 3 [(3 : ℤ)] [1, 2, 3] 9999).getD 0 [] = ([1, 2, 3] : List ℚ) := by
  have h := c2_redtoreg_exact 3 [(3 : ℤ)] [1, 2, 3] 9999 (by decide)
    (by decide) 0 (by decide)
  rw [h.2 (by decide) (by decide)]
  rfl

/-! ## The decoder handle and the message model

The external GRIB decoder owns, per message, a finite set of named keys, each
with a native type tag (`GRIB_TYPE_*` of grib_api.h), a payload, and a
read-only flag (the flag consulted by the `GRIB_KEYS_ITERATOR_SKIP_READ_ONLY`
iterator).  Type tag and payload are fused into one constructor each. -/

/-- One decoder entry: native type tag plus payload.  `eUndefined`, `eSection`,
`eBytes`, `eLabel` and `eMissing` are the payload-less tags
`GRIB_TYPE_UNDEFINED/SECTION/BYTES/LABEL/MISSING`. -/
inductive Entry where
  | eLong (v : ℤ)
  | eLongArr (v : List ℤ)
  | eDouble (v : ℚ)
  | eDoubleArr (v : List ℚ)
  | eString (v : String)
  | eUndefined
  | eSection
  | eBytes
  | eLabel
  | eMissing
  deriving DecidableEq

/-- Native type tags skipped by `gribmessage.keys()` (lines 399-402). -/
def Entry.ignorableType : Entry → Bool
  | .eUndefined => true
  | .eSection => true
  | .eBytes => true
  | .eLabel => true
  | .eMissing => true
  | _ => false

/-- One key of a decoder handle. -/
structure KV where
  name : String
  ent : Entry
  ro : Bool
  deriving DecidableEq

/-- Decoder key lookup (`grib_get_size` / `grib_get_native_type` succeed
exactly on present keys; first match wins). -/
def lookupKV (h : List KV) (k : String) : Option KV :=
  h.find? (fun e => decide (e.name = k))

/-- Key names unconditionally skipped by `gribmessage.keys()` (lines 392-395). -/
def ignoreNames : List String :=
  ["zero", "one", "eight", "eleven", "false", "thousand", "file", "localDir",
   "7777", "oneThousand"]

/-- Model of `gribmessage.keys()` (lines 373-406): enumerate every key of the handle,
dropping the hard-coded ignore list and keys of ignorable native type. -/
def keysModel (h : List KV) : List String :=
  (h.filter (fun e => !(ignoreNames.contains e.name) && !e.ent.ignorableType)).map KV.name

/-- Model of `gribmessage._read_only_keys()` (lines 407-432): the skip-read-only
iterator yields every non-read-only key (`keys_noro`, with no type filter and
no ignore list); the result is the cached catalog minus those names. -/
def readOnlyKeysModel (h : List KV) : List String :=
  let keysNoro := (h.filter (fun e => !e.ro)).map KV.name
  (keysModel h).filter (fun k => !(keysNoro.contains k))

/-- Constant `GRIB_MISSING_LONG` of grib_api.h. -/
def GRIB_MISSING_LONG : ℤ := 2147483647

/-- A `gribmessage`: the borrowed decoder handle plus the per-message
configuration and the catalog caches established at construction. -/
structure gribmessage where
  handle : List KV
  expand_reduced : Bool
  missingvalue_int : ℤ
  all_keys : List String
  ro_keys : List String
  deriving DecidableEq

/-- Construction `gribmessage.__new__` (lines 331-338): defaults (`expand_reduced = True`,
`missingvalue_int = GRIB_MISSING_LONG`) and the cached key catalog and
read-only subset. -/
def mkMessage (h : List KV) : gribmessage :=
  { handle := h
    expand_reduced := true
    missingvalue_int := GRIB_MISSING_LONG
    all_keys := keysModel h
    ro_keys := readOnlyKeysModel h }

/-- Model of `gribmessage.has_key` (line 585): membership in the cached catalog. -/
def has_key (m : gribmessage) (k : String) : Bool := decide (k ∈ m.all_keys)

/-- Python `str.rstrip()` (the `__getitem__` string path, line 576), over the
character list (`String.trimRight` itself does not reduce in the kernel). -/
def pyRstrip (s : String) : String :=
  String.mk ((s.data.reverse.dropWhile Char.isWhitespace).reverse)

/-- Python `str.startswith(pre)`, over the character list. -/
def strStarts (s pre : String) : Bool := decide (s.data.take pre.data.length = pre.data)

/-! Internal `self[key]` reads.  `latlons`, `_reshape_mask` and `__repr__`
read further keys through `__getitem__` recursively; those inner reads are
stratified into the accessors below, each behaving exactly as `__getitem__`
does on a key of the given native type (scalar when the element count is 1). -/

/-- Internal numeric scalar read: a long or double scalar (or one-element
array) as a Python number. -/
def msgNum (m : gribmessage) (k : String) : Except PyErr ℚ :=
  match lookupKV m.handle k with
  | none => .error (.runtimeError ("key not found: " ++ k))
  | some kv =>
      match kv.ent with
      | .eLong v => .ok (v : ℚ)
      | .eDouble v => .ok v
      | .eLongArr [v] => .ok (v : ℚ)
      | .eDoubleArr [v] => .ok v
      | _ => .error (.typeError k)

/-- Internal integer scalar read (keys such as `Ni`, `Nj`, `shapeOfTheEarth`
whose native type is long and whose value is used as a Python int). -/
def msgLong (m : gribmessage) (k : String) : Except PyErr ℤ :=
  match lookupKV m.handle k with
  | none => .error (.runtimeError ("key not found: " ++ k))
  | some kv =>
      match kv.ent with
      | .eLong v => .ok v
      | .eLongArr [v] => .ok v
      | _ => .error (.typeError k)

/-- Internal string read (`__getitem__` right-trims the decoded bytes). -/
def msgStr (m : gribmessage) (k : String) : Except PyErr String :=
  match lookupKV m.handle k with
  | none => .error (.runtimeError ("key not found: " ++ k))
  | some kv =>
      match kv.ent with
      | .eString s => .ok (pyRstrip s)
      | _ => .error (.typeError k)

/-- Internal long-array read (`pl`).  A one-element decoder array would come
back as a scalar from `__getitem__` and not behave as an array downstream, so
it is a type error here. -/
def msgLongArr (m : gribmessage) (k : String) : Except PyErr (List ℤ) :=
  match lookupKV m.handle k with
  | none => .error (.runtimeError ("key not found: " ++ k))
  | some kv =>
      match kv.ent with
      | .eLongArr v => if v.length = 1 then .error (.typeError k) else .ok v
      | _ => .error (.typeError k)

/-- Internal double-array read (`distinctLatitudes`, `distinctLongitudes`). -/
def msgDoubleArr (m : gribmessage) (k : String) : Except PyErr (List ℚ) :=
  match lookupKV m.handle k with
  | none => .error (.runtimeError ("key not found: " ++ k))
  | some kv =>
      match kv.ent with
      | .eDoubleArr v => if v.length = 1 then .error (.typeError k) else .ok v
      | _ => .error (.typeError k)

/-! ## MaskedValueWrapper: `_reshape_mask` (lines 633-671) -/

/-- Result of the `values` path: a plain 1-D array, a plain 2-D array, or a
masked 2-D array keyed on equality with the missing sentinel. -/
inductive ValuesResult where
  | oneD (xs : List ℚ)
  | twoD (g : List (List ℚ))
  | masked (g : List (List ℚ)) (missval : ℚ)
  deriving DecidableEq

/-- Intermediate array shape inside `_reshape_mask`. -/
inductive Arr where
  | one (xs : List ℚ)
  | two (g : List (List ℚ))
  deriving DecidableEq

/-- The data seen as the flat C buffer (`_redtoreg` reads `redgrid.data`
regardless of the array's dimensionality). -/
def Arr.flat : Arr → List ℚ
  | .one xs => xs
  | .two g => g.flatten

/-- numpy `datarr.shape = (ny, nx)` on a flat contiguous buffer: row `j` is
the slice `[j*nx, (j+1)*nx)`; raises unless the total size matches.  (Negative
dimensions, which the decoder never produces, are ruled out by the size
check for nonempty buffers.) -/
def npReshape (ny nx : ℕ) (xs : List ℚ) : Except PyErr (List (List ℚ)) :=
  if xs.length = ny * nx then
    .ok ((List.range ny).map (fun j => (xs.drop (j * nx)).take nx))
  else .error (.valueError "total size of new array must be unchanged")

/-- Lines 653-671 of `_reshape_mask`: for a 2-D array, read the three scan
flags, apply the scan-order corrections, then wrap the result in a masked
array when a `missingValue` key is present and `numberOfMissing` is truthy.
A 1-D array is passed through unchanged and never masked. -/
def scanMaskStage (m : gribmessage) (arr : Arr) : Except PyErr ValuesResult :=
  match arr with
  | .one xs => .ok (.oneD xs)
  | .two g => do
      let jv ← msgNum m "jScansPositively"
      let iv ← msgNum m "iScansNegatively"
      let av ← msgNum m "alternativeRowScanning"
      let g2 := decodeScanFlips (decide (jv ≠ 0)) (decide (iv ≠ 0)) (decide (av ≠ 0)) g
      if has_key m "missingValue" then do
        let nm ← msgNum m "numberOfMissing"
        if nm ≠ 0 then do
          let mv ← msgNum m "missingValue"
          pure (.masked g2 mv)
        else pure (.twoD g2)
      else pure (.twoD g2)

/-- Model of `gribmessage._reshape_mask` (lines 633-671), applied to the freshly
decoded flat 1-D `values` buffer: reshape to `(Nj, Ni)` when both keys are
present and neither is `GRIB_MISSING_LONG` (otherwise return the raw 1-D array
when the keys are absent — spectral data), expand a reduced grid to width
`2*Nj` when `expand_reduced` is on (sentinel: `missingValue`, default `1e30`),
then apply the scan corrections and optional masking. -/
def reshape_mask (m : gribmessage) (xs : List ℚ) : Except PyErr ValuesResult :=
  if has_key m "Ni" && has_key m "Nj" then
    msgLong m "Ni" >>= fun nx =>
    msgLong m "Nj" >>= fun ny =>
    (if ny ≠ GRIB_MISSING_LONG ∧ nx ≠ GRIB_MISSING_LONG then
        npReshape ny.toNat nx.toNat xs >>= fun g => pure (Arr.two g)
      else pure (Arr.one xs)) >>= fun a1 =>
    (if has_key m "typeOfGrid" then
        msgStr m "typeOfGrid" >>= fun tg => pure (strStarts tg "reduced")
      else pure false) >>= fun isRed =>
    (if isRed then
        (if has_key m "missingValue" then msgNum m "missingValue"
          else pure ((10 : ℚ) ^ (30 : ℕ))) >>= fun mv =>
        (if m.expand_reduced then
            msgLongArr m "pl" >>= fun pl =>
              pure (Arr.two (redtoreg (2 * ny).toNat pl a1.flat mv))
          else pure a1)
      else pure a1) >>= fun a2 =>
    scanMaskStage m a2
  else .ok (.oneD xs)

/-! ## TypedKeyAccessor: `__getitem__` and `__setitem__` -/

/-- A Python object returned by `__getitem__` (`None` appears as `Option.none`
at the call site). -/
inductive PyObj where
  | pyInt (v : ℤ)
  | pyFloat (v : ℚ)
  | pyIntArr (v : List ℤ)
  | pyFloatArr (v : List ℚ)
  | pyStr (v : String)
  | pyVals (v : ValuesResult)
  deriving DecidableEq

/-- Model of `gribmessage.__getitem__` (lines 501-578).  Element count 1 means scalar;
otherwise array.  The storage-order selection (`jPointsAreConsecutive` →
Fortran order, lines 537-541) affects only the memory layout of the freshly
allocated 1-D buffer, not its element order, and is omitted.  The `values`
key is routed through `_reshape_mask`. -/
def getItem (m : gribmessage) (k : String) : Except PyErr (Option PyObj) :=
  match lookupKV m.handle k with
  | none => .error (.runtimeError ("grib_get_size failed for " ++ k))
  | some kv =>
      match kv.ent with
      | .eUndefined => .ok none
      | .eLong v => .ok (some (.pyInt v))
      | .eLongArr v =>
          if v.length = 1 then .ok (some (.pyInt (v.getD 0 0)))
          else if k = "values" then do
            let r ← reshape_mask m (v.map (fun x => (x : ℚ)))
            pure (some (.pyVals r))
          else .ok (some (.pyIntArr v))
      | .eDouble v => .ok (some (.pyFloat v))
      | .eDoubleArr v =>
          if v.length = 1 then .ok (some (.pyFloat (v.getD 0 0)))
          else if k = "values" then do
            let r ← reshape_mask m v
            pure (some (.pyVals r))
          else .ok (some (.pyFloatArr v))
      | .eString s => .ok (some (.pyStr (pyRstrip s)))
      | .eSection => .error (.valueError "unrecognized grib type")
      | .eBytes => .error (.valueError "unrecognized grib type")
      | .eLabel => .error (.valueError "unrecognized grib type")
      | .eMissing => .error (.valueError "unrecognized grib type")

/-- A Python value supplied to `__setitem__`. -/
inductive PyVal where
  | int (v : ℤ)
  | float (v : ℚ)
  | str (v : String)
  | intArr (v : List ℤ)
  | floatArr (v : List ℚ)
  deriving DecidableEq

/-- Decoder write `grib_set_string`: replace the payload of key `k`. -/
def setEntry (h : List KV) (k : String) (e : Entry) : List KV :=
  h.map (fun kv => if kv.name = k then { kv with ent := e } else kv)

/-- Model of `gribmessage.__setitem__` (lines 433-500): the outcome, the resulting
message state, and the number of decoder-API calls performed.  The two local
`KeyError` gates run before any decoder call.  In the numeric branches the
source executes `is_array == False` (lines 456 and 476) — a comparison
statement, not an assignment — which evaluates the local `is_array` before any
assignment to it and therefore raises `UnboundLocalError` before the
scalar/array dispatch and before any decoder write. -/
def setItem (m : gribmessage) (k : String) (v : PyVal) :
    Except PyErr Unit × gribmessage × ℕ :=
  if k ∈ m.ro_keys then
    (.error (.keyError ("key \"" ++ k ++ "\" is read only")), m, 0)
  else if k ∉ m.all_keys then
    (.error (.keyError ("can only modify existing grib keys (key \"" ++ k
      ++ "\" not found)")), m, 0)
  else
    match lookupKV m.handle k with
    | none => (.error (.runtimeError ("grib_get_native_type failed for " ++ k)), m, 1)
    | some kv =>
        match kv.ent with
        | .eLong _ => (.error .unboundLocal, m, 1)
        | .eLongArr _ => (.error .unboundLocal, m, 1)
        | .eDouble _ => (.error .unboundLocal, m, 1)
        | .eDoubleArr _ => (.error .unboundLocal, m, 1)
        | .eString _ =>
            match v with
            | .str s => (.ok (), { m with handle := setEntry m.handle k (.eString s) }, 2)
            | _ => (.error (.typeError "PyString_AsString"), m, 1)
        | _ => (.error (.valueError "unrecognized grib type"), m, 1)

/-- The cached read-only subset is a subset of the cached catalog
(`_read_only_keys` filters `_all_keys`, lines 428-431). -/
theorem readOnlyKeysModel_subset (h : List KV) (k : String)
    (hk : k ∈ readOnlyKeysModel h) : k ∈ keysModel h :=
  (List.mem_filter.mp hk).1

/-- C3: for a message with its construction-time caches, a write to a key in
the cached read-only subset is rejected with the read-only `KeyError`, and a
write to a key absent from the cached catalog with the not-found `KeyError`;
in both cases no decoder call is made and the message state is unchanged. -/
theorem c3_set_rejected (h : List KV) (k : String) (v : PyVal) :
    (k ∈ (mkMessage h).ro_keys →
      setItem (mkMessage h) k v
        = (.error (.keyError ("key \"" ++ k ++ "\" is read only")), mkMessage h, 0)) ∧
    (k ∉ (mkMessage h).all_keys →
      setItem (mkMessage h) k v
        = (.error (.keyError ("can only modify existing grib keys (key \"" ++ k
            ++ "\" not found)")), mkMessage h, 0)) := by
  constructor
  · intro hk
    unfold setItem
    rw [if_pos hk]
  · intro hk
    have hro : k ∉ (mkMessage h).ro_keys := fun hmem =>
      hk (readOnlyKeysModel_subset h k hmem)
    unfold setItem
    rw [if_neg hro, if_pos hk]

/-- Concrete handle for the C3 witness: `centre` is read-only, `dataDate` is
writable. -/
def c3handle : List KV :=
  [⟨"centre", .eLong 7, true⟩, ⟨"dataDate", .eLong 20100101, false⟩]

/-- C3 witness: both rejection paths at a concrete message. -/
theorem c3_set_rejected_witness :
    setItem (mkMessage c3handle) "centre" (.int 98)
        = (.error (.keyError "key \"centre\" is read only"), mkMessage c3handle, 0) ∧
    setItem (mkMessage c3handle) "stepUnits" (.int 1)
        = (.error (.keyError "can only modify existing grib keys (key \"stepUnits\" not found)"),
           mkMessage c3handle, 0) :=
  ⟨(c3_set_rejected c3handle "centre" (.int 98)).1 (by decide),
   (c3_set_rejected c3handle "stepUnits" (.int 1)).2 (by decide)⟩

/-- C7 (amended): `__getitem__` returns `None` only for the undefined native
type; keys of section, bytes, label or missing type raise the
"unrecognized grib type" `ValueError` instead (such keys are excluded from the
key catalog at enumeration time rather than read as `None`). -/
theorem c7_get_ignorable_types (m : gribmessage) (k : String) (kv : KV)
    (hkv : lookupKV m.handle k = some kv) :
    (kv.ent = .eUndefined → getItem m k = .ok none) ∧
    ((kv.ent = .eSection ∨ kv.ent = .eBytes ∨ kv.ent = .eLabel ∨ kv.ent = .eMissing) →
      getItem m k = .error (.valueError "unrecognized grib type")) := by
  rcases kv with ⟨n, e, r⟩
  constructor
  · intro he
    simp only at he
    subst he
    unfold getItem
    rw [hkv]
  · intro he
    simp only at he
    unfold getItem
    rw [hkv]
    rcases he with he | he | he | he <;> subst he <;> rfl

/-- Concrete handle for C7: one key of each ignorable native type. -/
def c7handle : List KV :=
  [⟨"und", .eUndefined, true⟩, ⟨"sect", .eSection, true⟩,
   ⟨"lab", .eLabel, true⟩, ⟨"miss", .eMissing, true⟩]

/-- C7 counterexample: a key whose native type is label does not yield `none`;
`__getitem__` raises the "unrecognized grib type" error (line 577-578). -/
theorem c7_get_ignorable_types_cx :
    getItem (mkMessage c7handle) "lab" = .error (.valueError "unrecognized grib type") ∧
    getItem (mkMessage c7handle) "lab" ≠ .ok none := by
  constructor
  · rfl
  · decide

/-- C7 witness: the undefined type does yield `none`, and the section type
raises, at a concrete message. -/
theorem c7_get_ignorable_types_witness :
    getItem (mkMessage c7handle) "und" = .ok none ∧
    getItem (mkMessage c7handle) "sect" = .error (.valueError "unrecognized grib type") :=
  ⟨(c7_get_ignorable_types (mkMessage c7handle) "und" ⟨"und", .eUndefined, true⟩ rfl).1 rfl,
   (c7_get_ignorable_types (mkMessage c7handle) "sect" ⟨"sect", .eSection, true⟩ rfl).2
     (Or.inl rfl)⟩

/-- Concrete handle for C8: writable numeric keys. -/
def c8handle : List KV :=
  [⟨"paramId", .eLong 130, false⟩, ⟨"standardDeviation", .eDouble 2, false⟩]

/-- C8 (code bug): a write to an existing, writable key of integer or
floating-point native type never reaches the scalar/array dispatch or a
decoder write: it raises `UnboundLocalError` because line 456 (resp. 476)
spells the initialisation `is_array == False` — a comparison — so `is_array`
is read while still unbound.  Exactly one decoder call (the native-type
query) has happened, and the message is unchanged. -/
theorem c8_set_numeric_unbound_local :
    setItem (mkMessage c8handle) "paramId" (.int 131)
        = (.error .unboundLocal, mkMessage c8handle, 1) ∧
    setItem (mkMessage c8handle) "standardDeviation" (.float 3)
        = (.error .unboundLocal, mkMessage c8handle, 1) := by
  constructor <;> rfl

/-! ## C4: when is the `values` result masked? -/

theorem bind_eq_ok {ε α β : Type} (x : Except ε α) (f : α → Except ε β) (b : β) :
    (x >>= f = Except.ok b) ↔ ∃ a, x = .ok a ∧ f a = .ok b := by
  cases x <;> simp [Bind.bind, Except.bind]

/-- Stage lemma: `scanMaskStage` yields a masked result exactly when its input is 2-D, a
`missingValue` key is cached, and `numberOfMissing` reads back nonzero. -/
theorem scanMaskStage_masked_iff (m : gribmessage) (arr : Arr) (r : ValuesResult)
    (h : scanMaskStage m arr = .ok r) :
    (∃ g mv, r = .masked g mv) ↔
      ((∃ g0, arr = .two g0) ∧ has_key m "missingValue" = true ∧
        ∃ nm, msgNum m "numberOfMissing" = .ok nm ∧ nm ≠ 0) := by
  cases arr with
  | one xs =>
      simp only [scanMaskStage] at h
      injection h with h
      subst h
      constructor
      · rintro ⟨g, mv, hh⟩
        exact ValuesResult.noConfusion hh
      · rintro ⟨⟨g0, hg⟩, -, -⟩
        exact Arr.noConfusion hg
  | two g =>
      simp only [scanMaskStage] at h
      rw [bind_eq_ok] at h
      obtain ⟨jv, hjv, h⟩ := h
      rw [bind_eq_ok] at h
      obtain ⟨iv, hiv, h⟩ := h
      rw [bind_eq_ok] at h
      obtain ⟨av, hav, h⟩ := h
      by_cases hmk : has_key m "missingValue" = true
      · rw [if_pos hmk, bind_eq_ok] at h
        obtain ⟨nm, hnm, h⟩ := h
        by_cases hz : nm ≠ 0
        · rw [if_pos hz, bind_eq_ok] at h
          obtain ⟨mv, hmv, h⟩ := h
          injection h with h
          subst h
          constructor
          · intro _
            exact ⟨⟨g, rfl⟩, hmk, nm, hnm, hz⟩
          · intro _
            exact ⟨_, _, rfl⟩
        · rw [if_neg hz] at h
          injection h with h
          subst h
          push_neg at hz
          constructor
          · rintro ⟨g1, mv1, hh⟩
            exact ValuesResult.noConfusion hh
          · rintro ⟨-, -, nm1, hnm1, hz1⟩
            rw [hnm] at hnm1
            injection hnm1 with hnm1
            subst hnm1
            exact absurd hz hz1
      · rw [if_neg hmk] at h
        injection h with h
        subst h
        constructor
        · rintro ⟨g1, mv1, hh⟩
          exact ValuesResult.noConfusion hh
        · rintro ⟨-, hmk1, -⟩
          exact absurd hmk1 hmk

/-- Stage lemma: `scanMaskStage` yields a 1-D result exactly when its input was 1-D. -/
theorem scanMaskStage_oneD_iff (m : gribmessage) (arr : Arr) (r : ValuesResult)
    (h : scanMaskStage m arr = .ok r) :
    (∃ ys, r = .oneD ys) ↔ ∃ xs0, arr = .one xs0 := by
  cases arr with
  | one xs =>
      simp only [scanMaskStage] at h
      injection h with h
      subst h
      exact ⟨fun _ => ⟨xs, rfl⟩, fun _ => ⟨xs, rfl⟩⟩
  | two g =>
      simp only [scanMaskStage] at h
      rw [bind_eq_ok] at h
      obtain ⟨jv, hjv, h⟩ := h
      rw [bind_eq_ok] at h
      obtain ⟨iv, hiv, h⟩ := h
      rw [bind_eq_ok] at h
      obtain ⟨av, hav, h⟩ := h
      constructor
      · rintro ⟨ys, hys⟩
        subst hys
        by_cases hmk : has_key m "missingValue" = true
        · rw [if_pos hmk, bind_eq_ok] at h
          obtain ⟨nm, hnm, h⟩ := h
          by_cases hz : nm ≠ 0
          · rw [if_pos hz, bind_eq_ok] at h
            obtain ⟨mv, hmv, h⟩ := h
            injection h with h
            exact ValuesResult.noConfusion h
          · rw [if_neg hz] at h
            injection h with h
            exact ValuesResult.noConfusion h
        · rw [if_neg hmk] at h
          injection h with h
          exact ValuesResult.noConfusion h
      · rintro ⟨xs0, hxs⟩
        exact Arr.noConfusion hxs

/-- C4 (amended): the `values` result is masked exactly when the result is a
2-D array (the grid-shape/expansion stages produced one) and the message has a
`missingValue` key and reports a nonzero `numberOfMissing`; a result that
stays 1-D (no `Ni`/`Nj` grid shape, or an unexpanded reduced grid) is never
masked, even when both conditions hold. -/
theorem c4_values_masking (m : gribmessage) (xs : List ℚ) (r : ValuesResult)
    (h : reshape_mask m xs = .ok r) :
    (∃ g mv, r = .masked g mv) ↔
      ((¬ ∃ ys, r = .oneD ys) ∧ has_key m "missingValue" = true ∧
        ∃ nm, msgNum m "numberOfMissing" = .ok nm ∧ nm ≠ 0) := by
  by_cases hK : (has_key m "Ni" && has_key m "Nj") = true
  · rw [reshape_mask, if_pos hK] at h
    rw [bind_eq_ok] at h
    obtain ⟨nx, hnx, h⟩ := h
    rw [bind_eq_ok] at h
    obtain ⟨ny, hny, h⟩ := h
    rw [bind_eq_ok] at h
    obtain ⟨a1, ha1, h⟩ := h
    rw [bind_eq_ok] at h
    obtain ⟨isRed, hred, h⟩ := h
    rw [bind_eq_ok] at h
    obtain ⟨a2, ha2, h⟩ := h
    have hmask := scanMaskStage_masked_iff m a2 r h
    have hone := scanMaskStage_oneD_iff m a2 r h
    rw [hmask, hone]
    cases a2 with
    | one zs =>
        constructor
        · rintro ⟨⟨g0, hg⟩, -, -⟩
          exact Arr.noConfusion hg
        · rintro ⟨hno, -, -⟩
          exact absurd ⟨zs, rfl⟩ hno
    | two g0 =>
        constructor
        · rintro ⟨-, h2, h3⟩
          refine ⟨?_, h2, h3⟩
          rintro ⟨xs0, hxs⟩
          exact Arr.noConfusion hxs
        · rintro ⟨-, h2, h3⟩
          exact ⟨⟨g0, rfl⟩, h2, h3⟩
  · rw [reshape_mask, if_neg hK] at h
    injection h with h
    subst h
    constructor
    · rintro ⟨g, mv, hh⟩
      exact ValuesResult.noConfusion hh
    · rintro ⟨hno, -, -⟩
      exact absurd ⟨xs, rfl⟩ hno

/-- Concrete handle for the C4 counterexample: spectral-style data (no
`Ni`/`Nj`) that nevertheless declares a missing value and a nonzero missing
count. -/
def c4handle : List KV :=
  [⟨"values", .eDoubleArr [1, 9999, 3], true⟩,
   ⟨"missingValue", .eDouble 9999, false⟩,
   ⟨"numberOfMissing", .eLong 1, true⟩]

/-- C4 counterexample: a message with a `missingValue` key and
`numberOfMissing = 1` whose `values` result is returned unmasked (the raw 1-D
array), because the `Ni`/`Nj` grid shape is absent and masking only happens in
the 2-D branch. -/
theorem c4_values_masking_cx :
    getItem (mkMessage c4handle) "values"
        = .ok (some (.pyVals (.oneD [1, 9999, 3]))) ∧
    has_key (mkMessage c4handle) "missingValue" = true ∧
    msgNum (mkMessage c4handle) "numberOfMissing" = .ok 1 := by
  refine ⟨rfl, rfl, rfl⟩

/-- Concrete handle for the C4 witness: a regular 2×2 grid with a missing
value present. -/
def c4handle2 : List KV :=
  [⟨"values", .eDoubleArr [1, 9999, 3, 4], true⟩,
   ⟨"Ni", .eLong 2, true⟩, ⟨"Nj", .eLong 2, true⟩,
   ⟨"jScansPositively", .eLong 1, true⟩, ⟨"iScansNegatively", .eLong 0, true⟩,
   ⟨"alternativeRowScanning", .eLong 0, true⟩,
   ⟨"missingValue", .eDouble 9999, false⟩,
   ⟨"numberOfMissing", .eLong 1, true⟩]

/-- C4 witness: the masking equivalence instantiated at a concrete 2-D message
whose result is masked. -/
theorem c4_values_masking_witness :
    (∃ g mv, ValuesResult.masked [[(1 : ℚ), 9999], [3, 4]] 9999 = .masked g mv) ↔
      ((¬ ∃ ys, ValuesResult.masked [[(1 : ℚ), 9999], [3, 4]] 9999 = .oneD ys) ∧
        has_key (mkMessage c4handle2) "missingValue" = true ∧
        ∃ nm, msgNum (mkMessage c4handle2) "numberOfMissing" = .ok nm ∧ nm ≠ 0) :=
  c4_values_masking (mkMessage c4handle2) [1, 9999, 3, 4]
    (.masked [[1, 9999], [3, 4]] 9999) (by rfl)

/-! ## GridGeolocationResolver: `latlons` (lines 672-917) -/

/-- A projection-parameter value: a number or the projection-family name. -/
inductive PPVal where
  | num (v : ℚ)
  | str (v : String)
  deriving DecidableEq

/-- The `projparams` dict: assignment conses, lookups take the most recent
binding. -/
abbrev PParams := List (String × PPVal)

/-- Dict assignment `projparams[k] = v`. -/
def pupd (pp : PParams) (k : String) (v : PPVal) : PParams := (k, v) :: pp

/-- Dict lookup `projparams[k]`. -/
def plook (pp : PParams) (k : String) : Option PPVal :=
  (pp.find? (fun e => decide (e.1 = k))).map Prod.snd

/-- The external projection engine (pyproj) plus the transcendental piece of
numpy used by the space-view branch, as an oracle of total functions: `fwd` is
`pj(lon, lat)`, `inv` is `pj(x, y, inverse=True)` applied pointwise, and
`asinDeg q` stands for `(180/π)·arcsin(q)`. -/
structure ProjEngine where
  fwd : PParams → ℚ × ℚ → ℚ × ℚ
  inv : PParams → ℚ × ℚ → ℚ × ℚ
  asinDeg : ℚ → ℚ

/-- The identity engine, used to instantiate theorems at concrete inputs. -/
def trivEngine : ProjEngine :=
  { fwd := fun _ p => p, inv := fun _ p => p, asinDeg := fun q => q }

/-- NumPy `np.meshgrid(xs, ys)`: a pair of `(len ys) × (len xs)` arrays, the first
repeating `xs` in every row, the second holding `ys[j]` all across row `j`
(the outer-product mesh of the two vectors). -/
def npMeshgrid (xs ys : List ℚ) : List (List ℚ) × List (List ℚ) :=
  (ys.map (fun _ => xs), ys.map (fun y => xs.map (fun _ => y)))

/-- NumPy `np.linspace(a, b, n)`: `n` evenly spaced points from `a` to `b` inclusive
(spacing `(b-a)/(n-1)`; for `n ≤ 1` numpy returns `[a]` or `[]`). -/
def npLinspace (a b : ℚ) (n : ℕ) : List ℚ :=
  (List.range n).map (fun (k : ℕ) =>
    if n ≤ 1 then a else a + (k : ℚ) * (b - a) / ((n : ℚ) - 1))

/-- Mesh axis `llcrnr + d*np.arange(n)`. -/
def affineRange (c d : ℚ) (n : ℕ) : List ℚ :=
  (List.range n).map (fun (k : ℕ) => c + d * (k : ℚ))

/-- Pointwise inverse projection of an x/y mesh: longitude components. -/
def invMeshLons (eng : ProjEngine) (pp : PParams) (gx gy : List (List ℚ)) :
    List (List ℚ) :=
  (gx.zip gy).map (fun rc => (rc.1.zip rc.2).map (fun q => (eng.inv pp q).1))

/-- Pointwise inverse projection of an x/y mesh: latitude components. -/
def invMeshLats (eng : ProjEngine) (pp : PParams) (gx gy : List (List ℚ)) :
    List (List ℚ) :=
  (gx.zip gy).map (fun rc => (rc.1.zip rc.2).map (fun q => (eng.inv pp q).2))

/-- NumPy `x.max()` of a nonempty array (0 for the empty array, which numpy
rejects — unreachable in the modelled uses). -/
def npMax (l : List ℚ) : ℚ :=
  match l with
  | [] => 0
  | a :: t => t.foldl max a

/-- The oblate-spheroid scale factor (lines 690-697).  The source guard is
`if scalea and scalea is not self.missingvalue_int`.  The `is not` test
compares object identity: the freshly boxed long returned by the decoder read
is a different object from the `missingvalue_int` attribute even when their
values are equal (CPython creates a new object for every boxed long of this
magnitude), so the identity test is always true and the guard reduces to
`raw ≠ 0`.  When the guard passes the scale is `1000·10^(−raw)`
(`1000.*np.power(10.0,-scalea)`); otherwise 1. -/
def oblateScale (raw : ℤ) : ℚ :=
  if raw ≠ 0 then 1000 * (10 : ℚ) ^ (-raw) else 1

/-- The earth-shape prelude of `latlons` (lines 687-723): derives the
semi-major/semi-minor axes `(a, b)` recorded in `projparams`. -/
def earthParams (m : gribmessage) : Except PyErr (ℚ × ℚ) :=
  (if has_key m "scaleFactorOfMajorAxisOfOblateSpheroidEarth" then
      msgLong m "scaleFactorOfMajorAxisOfOblateSpheroidEarth" >>= fun sa =>
      msgLong m "scaleFactorOfMinorAxisOfOblateSpheroidEarth" >>= fun sb =>
      pure (oblateScale sa, oblateScale sb)
    else pure ((1 : ℚ), (1 : ℚ))) >>= fun scales =>
  msgLong m "shapeOfTheEarth" >>= fun shape =>
  if shape = 6 then
    msgNum m "radius" >>= fun r => pure (r, r)
  else if shape = 3 ∨ shape = 7 then
    msgNum m "scaledValueOfMajorAxisOfOblateSpheroidEarth" >>= fun va =>
    msgNum m "scaledValueOfMinorAxisOfOblateSpheroidEarth" >>= fun vb =>
    pure (va * scales.1, vb * scales.2)
  else if shape = 2 then pure ((6378160 : ℚ), (6356775 : ℚ))
  else if shape = 1 then
    msgNum m "scaledValueOfRadiusOfSphericalEarth" >>= fun r =>
    pure (r * scales.1, r * scales.2)
  else if shape = 0 then pure ((6367470 : ℚ), (6367470 : ℚ))
  else if shape = 0 then
    -- dead duplicate condition in the source (line 716, the WGS84 arm):
    -- unreachable because the previous arm already matched 0
    pure ((6378137 : ℚ), (63567523142 / 10000 : ℚ))
  else if shape = 8 then pure ((6371200 : ℚ), (6371200 : ℚ))
  else .error (.valueError "unknown shape of the earth flag")

/-- Evaluation of a Python local variable: `none` models a local referenced
before any assignment, which raises `UnboundLocalError`. -/
def evalLocal (v : Option α) : Except PyErr α :=
  match v with
  | none => .error .unboundLocal
  | some x => .ok x

/-- Model of `gribmessage.latlons()` (lines 672-917): returns `(lats, lons, projparams)`.
Transcription notes:
* `self['typeOfGrid']` is read once here instead of once per `elif` arm — the
  underlying store does not change between the reads;
* `self['truncateDegrees']` is likewise read once per branch instead of once
  per truncated quantity;
* the function locals `nx`, `ny` are assigned only in branches that spell an
  assignment; a branch that reads them without assigning first (the two
  azimuthal branches, lines 868-869 and 882-883) reads the unassigned local
  through `evalLocal` of `none`;
* pyproj construction and mapping failures are outside this model (the engine
  is total), as is `ℚ` division by zero (Python would raise), on which no
  claim depends. -/
def latlons (m : gribmessage) (eng : ProjEngine) :
    Except PyErr (List (List ℚ) × List (List ℚ) × PParams) :=
  let nxLocal : Option ℤ := none
  let nyLocal : Option ℤ := none
  earthParams m >>= fun ab =>
  let pp0 : PParams := pupd (pupd [] "a" (.num ab.1)) "b" (.num ab.2)
  msgStr m "typeOfGrid" >>= fun tg =>
  if tg = "regular_gg" ∨ tg = "regular_ll" then
    msgDoubleArr m "distinctLongitudes" >>= fun lons =>
    msgDoubleArr m "distinctLatitudes" >>= fun lats =>
    let mg := npMeshgrid lons lats
    pure (mg.2, mg.1, pupd pp0 "proj" (.str "cyl"))
  else if tg = "reduced_gg" then
    msgDoubleArr m "distinctLatitudes" >>= fun lats =>
    msgLong m "Nj" >>= fun ny =>
    let nx := 2 * ny
    msgNum m "longitudeOfFirstGridPointInDegrees" >>= fun lon1 =>
    msgNum m "longitudeOfLastGridPointInDegrees" >>= fun lon2 =>
    let lons := npLinspace lon1 lon2 nx.toNat
    let mg := npMeshgrid lons lats
    pure (mg.2, mg.1, pupd pp0 "proj" (.str "cyl"))
  else if tg = "reduced_ll" then
    msgLong m "Nj" >>= fun ny =>
    let nx := 2 * ny
    msgNum m "latitudeOfFirstGridPointInDegrees" >>= fun lat1 =>
    msgNum m "latitudeOfLastGridPointInDegrees" >>= fun lat2 =>
    msgNum m "longitudeOfFirstGridPointInDegrees" >>= fun lon1 =>
    msgNum m "longitudeOfLastGridPointInDegrees" >>= fun lon2 =>
    let lons := npLinspace lon1 lon2 nx.toNat
    let lats := npLinspace lat1 lat2 ny.toNat
    let mg := npMeshgrid lons lats
    pure (mg.2, mg.1, pupd pp0 "proj" (.str "cyl"))
  else if tg = "polar_stereographic" then
    msgNum m "latitudeOfFirstGridPointInDegrees" >>= fun lat1 =>
    msgNum m "longitudeOfFirstGridPointInDegrees" >>= fun lon1 =>
    msgLong m "Ni" >>= fun nx =>
    msgLong m "Nj" >>= fun ny =>
    msgNum m "xDirectionGridLengthInMetres" >>= fun dx =>
    msgNum m "yDirectionGridLengthInMetres" >>= fun dy =>
    msgNum m "latitudeWhereDxAndDyAreSpecifiedInDegrees" >>= fun latts =>
    msgLong m "projectionCentreFlag" >>= fun pcf =>
    msgNum m "orientationOfTheGridInDegrees" >>= fun lon0 =>
    let pp := pupd (pupd (pupd (pupd pp0 "proj" (.str "stere"))
      "lat_ts" (.num latts))
      "lat_0" (.num (if pcf = 0 then 90 else -90)))
      "lon_0" (.num lon0)
    let ll := eng.fwd pp (lon1, lat1)
    let mg := npMeshgrid (affineRange ll.1 dx nx.toNat) (affineRange ll.2 dy ny.toNat)
    pure (invMeshLats eng pp mg.1 mg.2, invMeshLons eng pp mg.1 mg.2, pp)
  else if tg = "lambert" then
    msgNum m "latitudeOfFirstGridPointInDegrees" >>= fun lat1 =>
    msgNum m "longitudeOfFirstGridPointInDegrees" >>= fun lon1 =>
    msgLong m "Ni" >>= fun nx =>
    msgLong m "Nj" >>= fun ny =>
    msgNum m "DxInMetres" >>= fun dx =>
    msgNum m "DyInMetres" >>= fun dy =>
    msgNum m "LoVInDegrees" >>= fun lov =>
    msgNum m "LaDInDegrees" >>= fun lad =>
    msgNum m "Latin1InDegrees" >>= fun latin1 =>
    msgNum m "Latin2InDegrees" >>= fun latin2 =>
    let pp := pupd (pupd (pupd (pupd (pupd pp0 "proj" (.str "lcc"))
      "lon_0" (.num lov)) "lat_0" (.num lad))
      "lat_1" (.num latin1)) "lat_2" (.num latin2)
    let ll := eng.fwd pp (lon1, lat1)
    let mg := npMeshgrid (affineRange ll.1 dx nx.toNat) (affineRange ll.2 dy ny.toNat)
    pure (invMeshLats eng pp mg.1 mg.2, invMeshLons eng pp mg.1 mg.2, pp)
  else if tg = "albers" then
    msgNum m "latitudeOfFirstGridPointInDegrees" >>= fun lat1 =>
    msgNum m "longitudeOfFirstGridPointInDegrees" >>= fun lon1 =>
    msgLong m "Ni" >>= fun nx =>
    msgLong m "Nj" >>= fun ny =>
    msgNum m "Dx" >>= fun dxr =>
    msgNum m "Dy" >>= fun dyr =>
    let dx := dxr / 1000
    let dy := dyr / 1000
    msgNum m "grib2divider" >>= fun scale =>
    msgNum m "truncateDegrees" >>= fun td =>
    let tr := fun (q : ℚ) => if td ≠ 0 then ((cTrunc q : ℤ) : ℚ) else q
    msgNum m "LoV" >>= fun lov =>
    msgNum m "LaD" >>= fun lad =>
    msgNum m "Latin1" >>= fun latin1 =>
    msgNum m "Latin2" >>= fun latin2 =>
    let pp := pupd (pupd (pupd (pupd (pupd pp0 "proj" (.str "aea"))
      "lon_0" (.num (tr (lov / scale)))) "lat_0" (.num (tr (lad / scale))))
      "lat_1" (.num (tr (latin1 / scale)))) "lat_2" (.num (tr (latin2 / scale)))
    let ll := eng.fwd pp (lon1, lat1)
    let mg := npMeshgrid (affineRange ll.1 dx nx.toNat) (affineRange ll.2 dy ny.toNat)
    pure (invMeshLats eng pp mg.1 mg.2, invMeshLons eng pp mg.1 mg.2, pp)
  else if tg = "space_view" then
    msgLong m "Ni" >>= fun nx =>
    msgLong m "Nj" >>= fun ny =>
    msgNum m "longitudeOfSubSatellitePointInDegrees" >>= fun lon0 =>
    msgNum m "latitudeOfSubSatellitePointInDegrees" >>= fun lat0 =>
    (if lat0 = 0 then pure "geos"
      else if ab.1 ≠ ab.2 then
        Except.error (.valueError "unsupported grid - earth not a perfect sphere")
      else pure "nsper") >>= fun projname =>
    msgNum m "grib2divider" >>= fun scale =>
    msgNum m "altitudeOfTheCameraFromTheEarthSCenterMeasuredInUnitsOfTheEarth" >>=
      fun alt =>
    let h0 := ab.1 * alt / scale
    let lonmax := (90 : ℚ) - eng.asinDeg (ab.1 / h0)
    let latmax := (90 : ℚ) - eng.asinDeg (ab.2 / h0)
    let latmax2 := ((cTrunc (1000 * latmax) : ℤ) : ℚ) / 1000
    let lonmax2 := ((cTrunc (1000 * lonmax) : ℤ) : ℚ) / 1000
    let pp := pupd (pupd (pupd (pupd (pupd pp0 "lon_0" (.num lon0))
      "lat_0" (.num lat0)) "proj" (.str projname)) "h" (.num h0))
      "h" (.num (h0 - ab.1))
    let xy1 := eng.fwd pp (0, latmax2)
    let xy2 := eng.fwd pp (lonmax2, 0)
    let width := 2 * xy2.1
    let height := 2 * xy1.2
    msgNum m "apparentDiameterOfEarthInGridLengthsInXDirection" >>= fun adx =>
    msgNum m "apparentDiameterOfEarthInGridLengthsInYDirection" >>= fun ady =>
    let dx := width / adx
    let dy := height / ady
    let xs0 := (List.range nx.toNat).map (fun (i : ℕ) => dx * (i : ℚ))
    let ys0 := (List.range ny.toNat).map (fun (j : ℕ) => dy * (j : ℚ))
    let xs2 := xs0.map (fun x => x - npMax xs0 / 2)
    let ys2 := ys0.map (fun y => y - npMax ys0 / 2)
    let mg := npMeshgrid xs2 ys2
    let clamp := fun (v : ℚ) => if |v| < (10 : ℚ) ^ (20 : ℕ) then v else (10 : ℚ) ^ (30 : ℕ)
    pure ((invMeshLats eng pp mg.1 mg.2).map (List.map clamp),
          (invMeshLons eng pp mg.1 mg.2).map (List.map clamp), pp)
  else if tg = "equatorial_azimuthal_equidistant" then
    msgNum m "standardParallel" >>= fun sp =>
    msgNum m "centralLongitude" >>= fun cl =>
    msgNum m "Dx" >>= fun dxr =>
    msgNum m "Dy" >>= fun dyr =>
    let dx := dxr / 1000
    let dy := dyr / 1000
    let pp := pupd (pupd (pupd pp0 "lat_0" (.num (sp / 1000000)))
      "lon_0" (.num (cl / 1000000))) "proj" (.str "aeqd")
    msgNum m "latitudeOfFirstGridPointInDegrees" >>= fun lat1 =>
    msgNum m "longitudeOfFirstGridPointInDegrees" >>= fun lon1 =>
    let ll := eng.fwd pp (lon1, lat1)
    -- `x = llcrnrx+dx*np.arange(nx)` (line 868): nx and ny were never
    -- assigned in this branch (the Ni/Nj keys are never read)
    evalLocal nxLocal >>= fun nx =>
    evalLocal nyLocal >>= fun ny =>
    let mg := npMeshgrid (affineRange ll.1 dx nx.toNat) (affineRange ll.2 dy ny.toNat)
    pure (invMeshLats eng pp mg.1 mg.2, invMeshLons eng pp mg.1 mg.2, pp)
  else if tg = "lambert_azimuthal_equal_area" then
    msgNum m "standardParallel" >>= fun sp =>
    msgNum m "centralLongitude" >>= fun cl =>
    msgNum m "Dx" >>= fun dxr =>
    msgNum m "Dy" >>= fun dyr =>
    let dx := dxr / 1000
    let dy := dyr / 1000
    let pp := pupd (pupd (pupd pp0 "lat_0" (.num (sp / 1000000)))
      "lon_0" (.num (cl / 1000000))) "proj" (.str "laea")
    msgNum m "latitudeOfFirstGridPointInDegrees" >>= fun lat1 =>
    msgNum m "longitudeOfFirstGridPointInDegrees" >>= fun lon1 =>
    let ll := eng.fwd pp (lon1, lat1)
    -- `x = llcrnrx+dx*np.arange(nx)` (line 882): same unassigned locals
    evalLocal nxLocal >>= fun nx =>
    evalLocal nyLocal >>= fun ny =>
    let mg := npMeshgrid (affineRange ll.1 dx nx.toNat) (affineRange ll.2 dy ny.toNat)
    pure (invMeshLats eng pp mg.1 mg.2, invMeshLons eng pp mg.1 mg.2, pp)
  else if tg = "mercator" then
    msgNum m "grib2divider" >>= fun scale =>
    msgNum m "latitudeOfFirstGridPoint" >>= fun lat1r =>
    msgNum m "truncateDegrees" >>= fun td =>
    let tr := fun (q : ℚ) => if td ≠ 0 then ((cTrunc q : ℤ) : ℚ) else q
    let lat1 := tr (lat1r / scale)
    msgNum m "longitudeOfFirstGridPoint" >>= fun lon1r =>
    let lon1 := tr (lon1r / scale)
    msgNum m "latitudeOfLastGridPoint" >>= fun lat2r =>
    let lat2 := tr (lat2r / scale)
    msgNum m "longitudeOfLastGridPoint" >>= fun lon2r =>
    let lon2 := tr (lon2r / scale)
    msgNum m "latitudeSAtWhichTheMercatorProjectionIntersectsTheEarth" >>= fun latsr =>
    let pp := pupd (pupd (pupd pp0 "lat_ts" (.num (latsr / scale)))
      "lon_0" (.num ((lon1 + lon2) / 2))) "proj" (.str "merc")
    let ll := eng.fwd pp (lon1, lat1)
    let ur := eng.fwd pp (lon2, lat2)
    msgLong m "Ni" >>= fun nx =>
    msgLong m "Nj" >>= fun ny =>
    let dx := (ur.1 - ll.1) / ((nx : ℚ) - 1)
    let dy := (ur.2 - ll.2) / ((ny : ℚ) - 1)
    let mg := npMeshgrid (affineRange ll.1 dx nx.toNat) (affineRange ll.2 dy ny.toNat)
    pure (invMeshLats eng pp mg.1 mg.2, invMeshLons eng pp mg.1 mg.2, pp)
  else .error (.valueError "unsupported grid")

theorem ok_bind {ε α β : Type} (a : α) (f : α → Except ε β) :
    (Except.ok a >>= f : Except ε β) = f a := rfl

theorem pure_ok {ε α : Type} (a : α) : (pure a : Except ε α) = .ok a := rfl

/-- A scale-factor exponent larger than 3 never yields the scale 1
(`1000·10^{−raw} = 1` would force `10^{raw} = 1000`). -/
theorem oblateScale_ne_one (raw : ℤ) (h : 3 < raw) : oblateScale raw ≠ 1 := by
  unfold oblateScale
  rw [if_pos (by omega)]
  intro hcontra
  have h10 : (1000 : ℚ) = 10 ^ raw := by
    have hmul := congrArg (· * (10 : ℚ) ^ raw) hcontra
    simp only [one_mul] at hmul
    rwa [mul_assoc, ← zpow_add₀ (by norm_num : (10 : ℚ) ≠ 0), neg_add_cancel,
      zpow_zero, mul_one] at hmul
  have hlt : (10 : ℚ) ^ (3 : ℤ) < 10 ^ raw :=
    zpow_lt_zpow_right₀ (by norm_num) h
  rw [← h10] at hlt
  norm_num at hlt

/-- Concrete failing message for C5: earth-shape code 1 (scaled spherical
radius) with the scale-factor keys equal to the missing sentinel
`GRIB_MISSING_LONG`. -/
def c5handle : List KV :=
  [⟨"scaleFactorOfMajorAxisOfOblateSpheroidEarth", .eLong 2147483647, false⟩,
   ⟨"scaleFactorOfMinorAxisOfOblateSpheroidEarth", .eLong 2147483647, false⟩,
   ⟨"shapeOfTheEarth", .eLong 1, false⟩,
   ⟨"scaledValueOfRadiusOfSphericalEarth", .eLong 6371229, false⟩]

/-- C5 (code-bug exhibit): when the scale-factor key equals the missing
sentinel, the earth-shape derivation does not default the scale to 1 — the
`is not` identity test never fires, so the code computes the axes as
`radius · 1000·10^{−2147483647}` instead of `radius`. -/
theorem c5_earth_scale_sentinel :
    earthParams (mkMessage c5handle)
        = .ok (((6371229 : ℤ) : ℚ) * oblateScale GRIB_MISSING_LONG,
               ((6371229 : ℤ) : ℚ) * oblateScale GRIB_MISSING_LONG) ∧
    oblateScale GRIB_MISSING_LONG ≠ 1 ∧
    ((6371229 : ℤ) : ℚ) * oblateScale GRIB_MISSING_LONG ≠ ((6371229 : ℤ) : ℚ) := by
  have hne1 : oblateScale GRIB_MISSING_LONG ≠ 1 :=
    oblateScale_ne_one _ (by unfold GRIB_MISSING_LONG; omega)
  refine ⟨?_, hne1, ?_⟩
  · have hkey : has_key (mkMessage c5handle)
        "scaleFactorOfMajorAxisOfOblateSpheroidEarth" = true := rfl
    have h1 : msgLong (mkMessage c5handle)
        "scaleFactorOfMajorAxisOfOblateSpheroidEarth" = .ok 2147483647 := rfl
    have h2 : msgLong (mkMessage c5handle)
        "scaleFactorOfMinorAxisOfOblateSpheroidEarth" = .ok 2147483647 := rfl
    have h3 : msgLong (mkMessage c5handle) "shapeOfTheEarth" = .ok 1 := rfl
    have h4 : msgNum (mkMessage c5handle) "scaledValueOfRadiusOfSphericalEarth"
        = .ok ((6371229 : ℤ) : ℚ) := rfl
    simp only [earthParams, hkey, if_true, h1, h2, h3, h4, ok_bind, pure_ok,
      GRIB_MISSING_LONG]
    norm_num
  · intro hcontra
    apply hne1
    have h0 : ((6371229 : ℤ) : ℚ) ≠ 0 := by norm_num
    calc oblateScale GRIB_MISSING_LONG
        = ((6371229 : ℤ) : ℚ)⁻¹ * (((6371229 : ℤ) : ℚ) * oblateScale GRIB_MISSING_LONG) := by
          rw [← mul_assoc, inv_mul_cancel₀ h0, one_mul]
      _ = ((6371229 : ℤ) : ℚ)⁻¹ * ((6371229 : ℤ) : ℚ) := by rw [hcontra]
      _ = 1 := inv_mul_cancel₀ h0

/-- C10: for a message whose grid type is `equatorial_azimuthal_equidistant`
or `lambert_azimuthal_equal_area`, `latlons` never returns coordinate arrays:
the branch reads the grid-dimension locals `nx`, `ny`, which are never
assigned in the branch (the `Ni`/`Nj` keys are never read), so the call fails
— with `UnboundLocalError` as soon as every preceding key read succeeds. -/
theorem c10_azimuthal_unbound (m : gribmessage) (eng : ProjEngine) (tg : String)
    (hTG : msgStr m "typeOfGrid" = .ok tg)
    (htg : tg = "equatorial_azimuthal_equidistant" ∨ tg = "lambert_azimuthal_equal_area") :
    (∀ r, latlons m eng ≠ .ok r) ∧
    (∀ (ab : ℚ × ℚ) (sp cl dx dy lat1 lon1 : ℚ),
      earthParams m = .ok ab →
      msgNum m "standardParallel" = .ok sp →
      msgNum m "centralLongitude" = .ok cl →
      msgNum m "Dx" = .ok dx →
      msgNum m "Dy" = .ok dy →
      msgNum m "latitudeOfFirstGridPointInDegrees" = .ok lat1 →
      msgNum m "longitudeOfFirstGridPointInDegrees" = .ok lon1 →
      latlons m eng = .error .unboundLocal) := by
  constructor
  · intro r hr
    simp only [latlons] at hr
    rw [bind_eq_ok] at hr
    obtain ⟨ab, hab, hr⟩ := hr
    rw [bind_eq_ok] at hr
    obtain ⟨tg2, htg2, hr⟩ := hr
    rw [hTG] at htg2
    injection htg2 with htg2
    subst htg2
    rcases htg with h | h <;> subst h
    · rw [if_neg (by decide), if_neg (by decide), if_neg (by decide),
        if_neg (by decide), if_neg (by decide), if_neg (by decide),
        if_neg (by decide), if_pos rfl] at hr
      rw [bind_eq_ok] at hr
      obtain ⟨sp, hsp, hr⟩ := hr
      rw [bind_eq_ok] at hr
      obtain ⟨cl, hcl, hr⟩ := hr
      rw [bind_eq_ok] at hr
      obtain ⟨dxr, hdx, hr⟩ := hr
      rw [bind_eq_ok] at hr
      obtain ⟨dyr, hdy, hr⟩ := hr
      rw [bind_eq_ok] at hr
      obtain ⟨lat1, hlat1, hr⟩ := hr
      rw [bind_eq_ok] at hr
      obtain ⟨lon1, hlon1, hr⟩ := hr
      rw [bind_eq_ok] at hr
      obtain ⟨nx, hnx, hr⟩ := hr
      exact absurd hnx (by simp [evalLocal])
    · rw [if_neg (by decide), if_neg (by decide), if_neg (by decide),
        if_neg (by decide), if_neg (by decide), if_neg (by decide),
        if_neg (by decide), if_neg (by decide), if_pos rfl] at hr
      rw [bind_eq_ok] at hr
      obtain ⟨sp, hsp, hr⟩ := hr
      rw [bind_eq_ok] at hr
      obtain ⟨cl, hcl, hr⟩ := hr
      rw [bind_eq_ok] at hr
      obtain ⟨dxr, hdx, hr⟩ := hr
      rw [bind_eq_ok] at hr
      obtain ⟨dyr, hdy, hr⟩ := hr
      rw [bind_eq_ok] at hr
      obtain ⟨lat1, hlat1, hr⟩ := hr
      rw [bind_eq_ok] at hr
      obtain ⟨lon1, hlon1, hr⟩ := hr
      rw [bind_eq_ok] at hr
      obtain ⟨nx, hnx, hr⟩ := hr
      exact absurd hnx (by simp [evalLocal])
  · intro ab sp cl dx dy lat1 lon1 hab hsp hcl hdx hdy hlat1 hlon1
    rcases htg with h | h <;> subst h <;>
    · simp only [latlons, hab, hTG, ok_bind, if_true, if_false]
      simp only [hsp, hcl, hdx, hdy, hlat1, hlon1, ok_bind]
      rfl

/-- Concrete message for the C10 witness: an aeqd grid with every key the
branch reads before the unbound locals. -/
def c10handle : List KV :=
  [⟨"shapeOfTheEarth", .eLong 0, false⟩,
   ⟨"typeOfGrid", .eString "equatorial_azimuthal_equidistant", true⟩,
   ⟨"standardParallel", .eLong 0, false⟩,
   ⟨"centralLongitude", .eLong 10000000, false⟩,
   ⟨"Dx", .eLong 5000, false⟩,
   ⟨"Dy", .eLong 5000, false⟩,
   ⟨"latitudeOfFirstGridPointInDegrees", .eDouble (-10), false⟩,
   ⟨"longitudeOfFirstGridPointInDegrees", .eDouble (-10), false⟩]

/-- C10 witness: the azimuthal branch fails with `UnboundLocalError` at a
concrete message whose key reads all succeed. -/
theorem c10_azimuthal_unbound_witness :
    latlons (mkMessage c10handle) trivEngine = .error .unboundLocal :=
  (c10_azimuthal_unbound (mkMessage c10handle) trivEngine
      "equatorial_azimuthal_equidistant" rfl (Or.inl rfl)).2
    (6367470, 6367470) 0 10000000 5000 5000 (-10) (-10)
    rfl rfl rfl rfl rfl rfl rfl

/-! ## C9: regular grids are meshed by outer product -/

theorem maximum_append (l₁ l₂ : List ℚ) :
    (l₁ ++ l₂).maximum = l₁.maximum ⊔ l₂.maximum := by
  induction l₁ with
  | nil => simp
  | cons a t ih => simp [List.maximum_cons, ih, sup_assoc]

theorem minimum_append (l₁ l₂ : List ℚ) :
    (l₁ ++ l₂).minimum = l₁.minimum ⊓ l₂.minimum := by
  induction l₁ with
  | nil => simp
  | cons a t ih => simp [List.minimum_cons, ih, inf_assoc]

theorem maximum_map_const (a : ℚ) (l : List ℚ) (h : l ≠ []) :
    (l.map (fun _ => a)).maximum = (a : WithBot ℚ) := by
  induction l with
  | nil => exact absurd rfl h
  | cons b t ih =>
      by_cases ht : t = []
      · subst ht; simp [List.maximum_cons]
      · rw [List.map_cons, List.maximum_cons, ih ht, sup_idem]

theorem minimum_map_const (a : ℚ) (l : List ℚ) (h : l ≠ []) :
    (l.map (fun _ => a)).minimum = (a : WithTop ℚ) := by
  induction l with
  | nil => exact absurd rfl h
  | cons b t ih =>
      by_cases ht : t = []
      · subst ht; simp [List.minimum_cons]
      · rw [List.map_cons, List.minimum_cons, ih ht, inf_idem]

theorem maximum_mesh_lat (lats lons : List ℚ) (h : lons ≠ []) :
    (lats.map (fun la => lons.map (fun _ => la))).flatten.maximum = lats.maximum := by
  induction lats with
  | nil => simp
  | cons la rest ih =>
      rw [List.map_cons, List.flatten_cons, maximum_append,
        maximum_map_const la lons h, List.maximum_cons, ih]

theorem minimum_mesh_lat (lats lons : List ℚ) (h : lons ≠ []) :
    (lats.map (fun la => lons.map (fun _ => la))).flatten.minimum = lats.minimum := by
  induction lats with
  | nil => simp
  | cons la rest ih =>
      rw [List.map_cons, List.flatten_cons, minimum_append,
        minimum_map_const la lons h, List.minimum_cons, ih]

theorem maximum_mesh_lon (lats lons : List ℚ) (h : lats ≠ []) :
    (lats.map (fun _ => lons)).flatten.maximum = lons.maximum := by
  induction lats with
  | nil => exact absurd rfl h
  | cons la rest ih =>
      by_cases hr : rest = []
      · subst hr; simp
      · rw [List.map_cons, List.flatten_cons, maximum_append, ih hr, sup_idem]

theorem minimum_mesh_lon (lats lons : List ℚ) (h : lats ≠ []) :
    (lats.map (fun _ => lons)).flatten.minimum = lons.minimum := by
  induction lats with
  | nil => exact absurd rfl h
  | cons la rest ih =>
      by_cases hr : rest = []
      · subst hr; simp
      · rw [List.map_cons, List.flatten_cons, minimum_append, ih hr, inf_idem]

/-- C9: for a `regular_gg`/`regular_ll` message, `latlons` returns exactly the
outer-product mesh of the distinct latitude and distinct longitude vectors —
shape `Nj × Ni`, the min/max of each output equal to the min/max of the
corresponding input vector — and records the `cyl` projection tag. -/
theorem c9_regular_outer_mesh (m : gribmessage) (eng : ProjEngine) (ab : ℚ × ℚ)
    (tg : String) (lats lons : List ℚ) (ni nj : ℤ)
    (hEP : earthParams m = .ok ab)
    (hTG : msgStr m "typeOfGrid" = .ok tg)
    (htg : tg = "regular_gg" ∨ tg = "regular_ll")
    (hLons : msgDoubleArr m "distinctLongitudes" = .ok lons)
    (hLats : msgDoubleArr m "distinctLatitudes" = .ok lats)
    (hNi : msgLong m "Ni" = .ok ni) (hNj : msgLong m "Nj" = .ok nj)
    (hlenLa : lats.length = nj.toNat) (hlenLo : lons.length = ni.toNat)
    (hla : lats ≠ []) (hlo : lons ≠ []) :
    latlons m eng
        = .ok (lats.map (fun la => lons.map (fun _ => la)),
               lats.map (fun _ => lons),
               pupd (pupd (pupd [] "a" (.num ab.1)) "b" (.num ab.2)) "proj" (.str "cyl"))
      ∧ plook (pupd (pupd (pupd [] "a" (.num ab.1)) "b" (.num ab.2)) "proj" (.str "cyl"))
          "proj" = some (.str "cyl")
      ∧ (lats.map (fun la => lons.map (fun _ => la))).length = nj.toNat
      ∧ (∀ row ∈ lats.map (fun la => lons.map (fun _ => la)), row.length = ni.toNat)
      ∧ (lats.map (fun _ => lons)).length = nj.toNat
      ∧ (∀ row ∈ lats.map (fun _ => lons), row.length = ni.toNat)
      ∧ (lats.map (fun la => lons.map (fun _ => la))).flatten.maximum = lats.maximum
      ∧ (lats.map (fun la => lons.map (fun _ => la))).flatten.minimum = lats.minimum
      ∧ (lats.map (fun _ => lons)).flatten.maximum = lons.maximum
      ∧ (lats.map (fun _ => lons)).flatten.minimum = lons.minimum := by
  refine ⟨?_, rfl, by simp [hlenLa], ?_, by simp [hlenLa], ?_,
    maximum_mesh_lat lats lons hlo, minimum_mesh_lat lats lons hlo,
    maximum_mesh_lon lats lons hla, minimum_mesh_lon lats lons hla⟩
  · rcases htg with h | h <;> subst h <;>
      simp [latlons, hEP, hTG, hLons, hLats, ok_bind, pure_ok, npMeshgrid, pupd]
  · intro row hrow
    rw [List.mem_map] at hrow
    obtain ⟨la, -, hrow⟩ := hrow
    rw [← hrow, List.length_map, hlenLo]
  · intro row hrow
    rw [List.mem_map] at hrow
    obtain ⟨la, -, hrow⟩ := hrow
    rw [← hrow, hlenLo]

/-- Concrete handle for the C9 witness: a small regular gaussian grid. -/
def c9handle : List KV :=
  [⟨"shapeOfTheEarth", .eLong 0, false⟩,
   ⟨"typeOfGrid", .eString "regular_gg", true⟩,
   ⟨"distinctLatitudes", .eDoubleArr [-30, 30], true⟩,
   ⟨"distinctLongitudes", .eDoubleArr [0, 90, 180], true⟩,
   ⟨"Ni", .eLong 3, true⟩, ⟨"Nj", .eLong 2, true⟩]

/-- C9 witness: the outer-product mesh at a concrete regular grid. -/
theorem c9_regular_outer_mesh_witness :
    latlons (mkMessage c9handle) trivEngine
      = .ok (([-30, 30] : List ℚ).map (fun la => ([0, 90, 180] : List ℚ).map (fun _ => la)),
             ([-30, 30] : List ℚ).map (fun _ => ([0, 90, 180] : List ℚ)),
             pupd (pupd (pupd [] "a" (.num 6367470)) "b" (.num 6367470)) "proj" (.str "cyl")) :=
  (c9_regular_outer_mesh (mkMessage c9handle) trivEngine (6367470, 6367470)
    "regular_gg" [-30, 30] [0, 90, 180] 3 2 rfl rfl (Or.inl rfl) rfl rfl rfl rfl
    rfl rfl (by decide) (by decide)).1

/-! ## C6: reduced grids -/

/-- C6 (amended): (1) for a `reduced_gg` message `latlons` meshes the distinct
latitudes with a longitude vector evenly spaced between the first and last
longitude over exactly `2*Nj` points; (2) the same longitude vector is built
for `reduced_ll` (with linearly spaced latitudes); (3) on the values path,
any grid type that starts with "reduced" is expanded (when `expand_reduced`
is on) by `_redtoreg` with target width `2*Nj`, the `pl` row-length vector and
the `missingValue` sentinel (default `1e30` when the key is absent); (4) the
expansion toggle defaults to on at message construction. -/
theorem c6_reduced_paths :
    (∀ (m : gribmessage) (eng : ProjEngine) (ab : ℚ × ℚ) (lats : List ℚ)
        (nj : ℤ) (lon1 lon2 : ℚ),
      earthParams m = .ok ab →
      msgStr m "typeOfGrid" = .ok "reduced_gg" →
      msgDoubleArr m "distinctLatitudes" = .ok lats →
      msgLong m "Nj" = .ok nj →
      msgNum m "longitudeOfFirstGridPointInDegrees" = .ok lon1 →
      msgNum m "longitudeOfLastGridPointInDegrees" = .ok lon2 →
      latlons m eng
          = .ok (lats.map (fun la => (npLinspace lon1 lon2 (2 * nj).toNat).map (fun _ => la)),
                 lats.map (fun _ => npLinspace lon1 lon2 (2 * nj).toNat),
                 pupd (pupd (pupd [] "a" (.num ab.1)) "b" (.num ab.2)) "proj" (.str "cyl"))
        ∧ (npLinspace lon1 lon2 (2 * nj).toNat).length = (2 * nj).toNat) ∧
    (∀ (m : gribmessage) (eng : ProjEngine) (ab : ℚ × ℚ) (nj : ℤ)
        (lat1 lat2 lon1 lon2 : ℚ),
      earthParams m = .ok ab →
      msgStr m "typeOfGrid" = .ok "reduced_ll" →
      msgLong m "Nj" = .ok nj →
      msgNum m "latitudeOfFirstGridPointInDegrees" = .ok lat1 →
      msgNum m "latitudeOfLastGridPointInDegrees" = .ok lat2 →
      msgNum m "longitudeOfFirstGridPointInDegrees" = .ok lon1 →
      msgNum m "longitudeOfLastGridPointInDegrees" = .ok lon2 →
      latlons m eng
          = .ok ((npLinspace lat1 lat2 nj.toNat).map
                   (fun la => (npLinspace lon1 lon2 (2 * nj).toNat).map (fun _ => la)),
                 (npLinspace lat1 lat2 nj.toNat).map
                   (fun _ => npLinspace lon1 lon2 (2 * nj).toNat),
                 pupd (pupd (pupd [] "a" (.num ab.1)) "b" (.num ab.2)) "proj" (.str "cyl"))
        ∧ (npLinspace lon1 lon2 (2 * nj).toNat).length = (2 * nj).toNat) ∧
    (∀ (m : gribmessage) (xs : List ℚ) (nx ny : ℤ) (tg : String)
        (pl : List ℤ) (mv : ℚ),
      has_key m "Ni" = true → has_key m "Nj" = true →
      msgLong m "Ni" = .ok nx → msgLong m "Nj" = .ok ny →
      nx = GRIB_MISSING_LONG →
      has_key m "typeOfGrid" = true →
      msgStr m "typeOfGrid" = .ok tg →
      strStarts tg "reduced" = true →
      m.expand_reduced = true →
      msgLongArr m "pl" = .ok pl →
      ((has_key m "missingValue" = true ∧ msgNum m "missingValue" = .ok mv) ∨
        (has_key m "missingValue" = false ∧ mv = (10 : ℚ) ^ (30 : ℕ))) →
      reshape_mask m xs = scanMaskStage m (Arr.two (redtoreg (2 * ny).toNat pl xs mv))) ∧
    (∀ h : List KV, (mkMessage h).expand_reduced = true) := by
  refine ⟨?_, ?_, ?_, fun h => rfl⟩
  · intro m eng ab lats nj lon1 lon2 hEP hTG hLats hNj hlon1 hlon2
    constructor
    · simp [latlons, hEP, hTG, hLats, hNj, hlon1, hlon2, ok_bind, pure_ok,
        npMeshgrid, pupd]
    · rw [npLinspace, List.length_map, List.length_range]
  · intro m eng ab nj lat1 lat2 lon1 lon2 hEP hTG hNj hlat1 hlat2 hlon1 hlon2
    constructor
    · simp [latlons, hEP, hTG, hNj, hlat1, hlat2, hlon1, hlon2, ok_bind, pure_ok,
        npMeshgrid, pupd]
    · rw [npLinspace, List.length_map, List.length_range]
  · intro m xs nx ny tg pl mv hk1 hk2 hNi hNj hnxml hkT hTG hstart hexp hpl hmv
    rw [reshape_mask, if_pos (by rw [hk1, hk2]; rfl)]
    rw [hNi, ok_bind, hNj, ok_bind]
    rw [if_neg (by rintro ⟨-, h2⟩; exact h2 hnxml), pure_ok, ok_bind]
    rw [if_pos hkT, hTG, ok_bind, pure_ok, ok_bind, hstart, if_pos rfl]
    rcases hmv with ⟨hkm, hvm⟩ | ⟨hkm, hvm⟩
    · rw [if_pos hkm, hvm, ok_bind, if_pos hexp, hpl, ok_bind, pure_ok, ok_bind]
      rfl
    · rw [if_neg (by simp [hkm]), pure_ok, ok_bind, if_pos hexp, hpl, ok_bind,
        pure_ok, ok_bind]
      subst hvm
      rfl

/-- Concrete handle for the C6 counterexample: a grid-type string that starts
with "reduced" but is neither `reduced_gg` nor `reduced_ll`. -/
def c6cxhandle : List KV :=
  [⟨"shapeOfTheEarth", .eLong 0, false⟩,
   ⟨"typeOfGrid", .eString "reduced_xx", true⟩,
   ⟨"Nj", .eLong 2, true⟩]

/-- C6 counterexample: for a message whose grid type starts with "reduced"
(but is not one of the two strings `latlons` matches exactly), `latlons` does
not build any longitude vector — it fails with "unsupported grid". -/
theorem c6_reduced_paths_cx :
    strStarts "reduced_xx" "reduced" = true ∧
    latlons (mkMessage c6cxhandle) trivEngine
      = .error (.valueError "unsupported grid") := by
  exact ⟨rfl, rfl⟩

/-- Concrete `reduced_gg` handle for the C6 witness (latlons path). -/
def c6ggHandle : List KV :=
  [⟨"shapeOfTheEarth", .eLong 0, false⟩,
   ⟨"typeOfGrid", .eString "reduced_gg", true⟩,
   ⟨"distinctLatitudes", .eDoubleArr [50, -50], true⟩,
   ⟨"Nj", .eLong 2, true⟩,
   ⟨"longitudeOfFirstGridPointInDegrees", .eDouble 0, false⟩,
   ⟨"longitudeOfLastGridPointInDegrees", .eDouble 270, false⟩]

/-- Concrete `reduced_ll` handle for the C6 witness (latlons path). -/
def c6llHandle : List KV :=
  [⟨"shapeOfTheEarth", .eLong 0, false⟩,
   ⟨"typeOfGrid", .eString "reduced_ll", true⟩,
   ⟨"Nj", .eLong 2, true⟩,
   ⟨"latitudeOfFirstGridPointInDegrees", .eDouble (-45), false⟩,
   ⟨"latitudeOfLastGridPointInDegrees", .eDouble 45, false⟩,
   ⟨"longitudeOfFirstGridPointInDegrees", .eDouble 0, false⟩,
   ⟨"longitudeOfLastGridPointInDegrees", .eDouble 270, false⟩]

/-- Concrete reduced handle for the C6 witness (values path): `Ni` is the
missing sentinel, `pl` holds the per-row lengths. -/
def c6vHandle : List KV :=
  [⟨"Ni", .eLong 2147483647, true⟩, ⟨"Nj", .eLong 2, true⟩,
   ⟨"typeOfGrid", .eString "reduced_gg", true⟩,
   ⟨"pl", .eLongArr [3, 4], true⟩,
   ⟨"missingValue", .eDouble 9999, false⟩,
   ⟨"jScansPositively", .eLong 1, true⟩, ⟨"iScansNegatively", .eLong 0, true⟩,
   ⟨"alternativeRowScanning", .eLong 0, true⟩,
   ⟨"numberOfMissing", .eLong 0, true⟩]

/-- C6 witness: all four amended conjuncts at concrete inputs. -/
theorem c6_reduced_paths_witness :
    (latlons (mkMessage c6ggHandle) trivEngine
        = .ok (([50, -50] : List ℚ).map
                 (fun la => (npLinspace 0 270 (2 * (2 : ℤ)).toNat).map (fun _ => la)),
               ([50, -50] : List ℚ).map (fun _ => npLinspace 0 270 (2 * (2 : ℤ)).toNat),
               pupd (pupd (pupd [] "a" (.num 6367470)) "b" (.num 6367470)) "proj" (.str "cyl"))
      ∧ (npLinspace (0 : ℚ) 270 (2 * (2 : ℤ)).toNat).length = (2 * (2 : ℤ)).toNat) ∧
    (latlons (mkMessage c6llHandle) trivEngine
        = .ok ((npLinspace (-45) 45 (2 : ℤ).toNat).map
                 (fun la => (npLinspace 0 270 (2 * (2 : ℤ)).toNat).map (fun _ => la)),
               (npLinspace (-45) 45 (2 : ℤ).toNat).map
                 (fun _ => npLinspace 0 270 (2 * (2 : ℤ)).toNat),
               pupd (pupd (pupd [] "a" (.num 6367470)) "b" (.num 6367470)) "proj" (.str "cyl"))
      ∧ (npLinspace (0 : ℚ) 270 (2 * (2 : ℤ)).toNat).length = (2 * (2 : ℤ)).toNat) ∧
    reshape_mask (mkMessage c6vHandle) [1, 2, 3, 4, 5, 6, 7]
        = scanMaskStage (mkMessage c6vHandle)
            (Arr.two (redtoreg (2 * (2 : ℤ)).toNat [3, 4] [1, 2, 3, 4, 5, 6, 7] 9999)) ∧
    (mkMessage c6ggHandle).expand_reduced = true :=
  ⟨c6_reduced_paths.1 (mkMessage c6ggHandle) trivEngine (6367470, 6367470)
      [50, -50] 2 0 270 rfl rfl rfl rfl rfl rfl,
   c6_reduced_paths.2.1 (mkMessage c6llHandle) trivEngine (6367470, 6367470)
      2 (-45) 45 0 270 rfl rfl rfl rfl rfl rfl rfl,
   c6_reduced_paths.2.2.1 (mkMessage c6vHandle) [1, 2, 3, 4, 5, 6, 7]
      2147483647 2 "reduced_gg" [3, 4] 9999 rfl rfl rfl rfl rfl rfl rfl rfl rfl rfl
      (Or.inl ⟨rfl, rfl⟩),
   c6_reduced_paths.2.2.2 c6ggHandle⟩

end Pygrib
